import Mathlib

/-
Shallow embedding of the Result/Error subsystem of `src/etl/include/etl.hpp`
(namespace `etl`): `SourceLocation`, `Error` (with its message/diagnostic
pair), the generic `Result<OkType, ErrType>` backed by a variant plus a
`bool` discriminant, and the `Result<std::unique_ptr<OkType>, ErrType>`
specialization whose `ok()` deep-copies the pointee.  Stateful heap
behaviour of the specialization is modelled by explicit heap passing.
-/

namespace etl

/-- Embeds `etl::SourceLocation`: file path, line number (a `uint32_t` in the
source; line numbers are stored and rendered, never computed with, so `Nat`
is a faithful carrier for its values) and function name, all set at
construction (the default constructor is deleted) and never mutated. -/
structure SourceLocation where
  file_ : String
  line_ : Nat
  func_ : String

/-- Embeds `SourceLocation::file`. -/
def SourceLocation.file (s : SourceLocation) : String := s.file_

/-- Embeds `SourceLocation::line`. -/
def SourceLocation.line (s : SourceLocation) : Nat := s.line_

/-- Embeds `SourceLocation::function`. -/
def SourceLocation.function (s : SourceLocation) : String := s.func_

/-- Embeds `etl::Error`: a message string `msg_` and a pre-formatted
diagnostic string `info_` (empty when no `SourceLocation` was supplied). -/
structure Error where
  msg_ : String
  info_ : String

/-- Embeds the private constructor `Error(std::string_view const &msg)`:
only the message is stored, `info_` keeps its default empty value. -/
def Error.mkMsg (msg : String) : Error := ⟨msg, ""⟩

/-- Embeds the private constructor `Error(msg, SourceLocation &&slc)`:
`info_` is built by the append chain
`"Error: " + msg + "\nFunction: " + slc.function() + "\nFile: " + slc.file() + ":" + std::to_string(slc.line())`
(`std::to_string` on an unsigned integer is its decimal rendering, which is
`toString` on `Nat`). -/
def Error.mkMsgLoc (msg : String) (slc : SourceLocation) : Error :=
  ⟨msg,
   "Error: " ++ msg ++ "\nFunction: " ++ slc.function ++ "\nFile: " ++
     slc.file ++ ":" ++ toString slc.line⟩

/-- Embeds `Error::create(std::string_view const &msg)`. -/
def Error.create (msg : String) : Error := Error.mkMsg msg

/-- Embeds `Error::create(std::string_view const &msg, SourceLocation &&slc)`. -/
def Error.createLoc (msg : String) (slc : SourceLocation) : Error :=
  Error.mkMsgLoc msg slc

/-- Embeds `Error::msg`: returns the message unconditionally. -/
def Error.msg (e : Error) : String := e.msg_

/-- Embeds `Error::set`: overwrites `msg_` in place; `info_` is untouched. -/
def Error.set (e : Error) (msg : String) : Error := ⟨msg, e.info_⟩

/-- Embeds `Error::info`: `if (!info_.empty()) return info_; return msg_;`. -/
def Error.info (e : Error) : String :=
  if !e.info_.isEmpty then e.info_ else e.msg_

/-- Embeds the generic `etl::Result<OkType, ErrType>`: a
`std::variant<OkType, ErrType>` (a tagged union, `Sum` here, with the same
by-alternative discrimination `std::get_if` performs) together with the
separate `bool isOk_` flag the class maintains alongside the variant. -/
structure Result (α ε : Type) where
  result_ : Sum α ε
  isOk_ : Bool

/-- Embeds the Ok-branch constructors `Result(OkType const &value)` /
`Result(OkType &&value)`: store the value in the variant's first
alternative and set `isOk_` to `true`. -/
def Result.mkOk {α ε : Type} (value : α) : Result α ε := ⟨Sum.inl value, true⟩

/-- Embeds the Err-branch constructors `Result(ErrType const &error)` /
`Result(ErrType &&error)`: store the error in the variant's second
alternative and set `isOk_` to `false`. -/
def Result.mkErr {α ε : Type} (error : ε) : Result α ε := ⟨Sum.inr error, false⟩

/-- Embeds `Result::isOk`. -/
def Result.isOk {α ε : Type} (r : Result α ε) : Bool := r.isOk_

/-- Embeds `Result::isErr`: `return !isOk_;`. -/
def Result.isErr {α ε : Type} (r : Result α ε) : Bool := !r.isOk_

/-- Embeds `Result::ok`: when `isOk_` holds and `std::get_if<OkType>`
yields a non-null pointer, the stored value is copied out; otherwise
`std::nullopt`. -/
def Result.ok {α ε : Type} (r : Result α ε) : Option α :=
  if r.isOk_ then
    match r.result_ with
    | Sum.inl value => some value
    | Sum.inr _ => none
  else none

/-- Embeds `Result::err`: when `!isOk_` holds and `std::get_if<ErrType>`
yields a non-null pointer, the stored error is copied out; otherwise
`std::nullopt`. -/
def Result.err {α ε : Type} (r : Result α ε) : Option ε :=
  if !r.isOk_ then
    match r.result_ with
    | Sum.inr e => some e
    | Sum.inl _ => none
  else none

/-- Embeds `Result::map` instantiated at a callable that is invocable as
`OkType(OkType const &)`, i.e. the `constexpr` branch
`std::is_invocable_r_v<OkType, Function, OkType const &>` is taken: in the
Ok state the function is applied to the stored value and an Ok result is
built from its output; in the Err state a new result is built from the
stored error.  In each state the source dereferences the matching
`std::get_if` pointer; a state whose flag disagrees with the live variant
alternative would dereference a null pointer (undefined behaviour), and is
unreachable from the constructors — that branch returns `r` as junk. -/
def Result.map {α ε : Type} (func : α → α) (r : Result α ε) : Result α ε :=
  if r.isOk_ then
    match r.result_ with
    | Sum.inl value => Result.mkOk (func value)
    | Sum.inr _ => r
  else
    match r.result_ with
    | Sum.inr e => Result.mkErr e
    | Sum.inl _ => r

/-- Embeds `Result::map` instantiated at a callable that is NOT invocable
as `OkType(OkType const &)`, i.e. the `else` branch of the `constexpr if`:
in the Ok state the existing stored value is passed through into a new Ok
result unchanged; the Err state behaves as in `Result.map`.  Junk branches
as in `Result.map`. -/
def Result.mapMismatch {α ε : Type} (r : Result α ε) : Result α ε :=
  if r.isOk_ then
    match r.result_ with
    | Sum.inl value => Result.mkOk value
    | Sum.inr _ => r
  else
    match r.result_ with
    | Sum.inr e => Result.mkErr e
    | Sum.inl _ => r

/-- Embeds `Result::mapErr` instantiated at a callable invocable as
`ErrType(ErrType const &)`: in the Err state the function transforms the
stored error; in the Ok state a new Ok result is built from the stored
value.  Junk branches as in `Result.map`. -/
def Result.mapErr {α ε : Type} (func : ε → ε) (r : Result α ε) : Result α ε :=
  if !r.isOk_ then
    match r.result_ with
    | Sum.inr e => Result.mkErr (func e)
    | Sum.inl _ => r
  else
    match r.result_ with
    | Sum.inl value => Result.mkOk value
    | Sum.inr _ => r

/-- Embeds `Result::mapErr` instantiated at a callable that is NOT
invocable as `ErrType(ErrType const &)` (the `constexpr` else branch): the
stored error is passed through unchanged in the Err state; the Ok state
behaves as in `Result.mapErr`. -/
def Result.mapErrMismatch {α ε : Type} (r : Result α ε) : Result α ε :=
  if !r.isOk_ then
    match r.result_ with
    | Sum.inr e => Result.mkErr e
    | Sum.inl _ => r
  else
    match r.result_ with
    | Sum.inl value => Result.mkOk value
    | Sum.inr _ => r

/-- The results reachable through the public interface of
`etl::Result`: its constructors and its `map`/`mapErr` combinators (in
both of their `constexpr` instantiations). -/
inductive Reachable {α ε : Type} : Result α ε → Prop where
  | mk_ok (value : α) : Reachable (Result.mkOk value)
  | mk_err (error : ε) : Reachable (Result.mkErr error)
  | map_step (func : α → α) (r : Result α ε) :
      Reachable r → Reachable (Result.map func r)
  | mapMismatch_step (r : Result α ε) :
      Reachable r → Reachable (Result.mapMismatch r)
  | mapErr_step (func : ε → ε) (r : Result α ε) :
      Reachable r → Reachable (Result.mapErr func r)
  | mapErrMismatch_step (r : Result α ε) :
      Reachable r → Reachable (Result.mapErrMismatch r)

/-- An exclusively-owned heap pointer (`std::unique_ptr`), modelled as an
address into an explicit heap. -/
structure UniquePtr where
  addr : Nat

/-- The heap of pointees for the owned-pointer specialization: allocation
(`std::make_unique`) appends a fresh cell at the end. -/
abbrev Heap (α : Type) : Type := List α

/-- Dereferencing an owned pointer on a heap: the pointee if the address
is live, `none` when dangling. -/
def Heap.read {α : Type} (h : Heap α) (p : UniquePtr) : Option α :=
  h[p.addr]?

/-- Embeds the specialization `etl::Result<std::unique_ptr<OkType>, ErrType>`:
the variant holds an owned pointer in its first alternative, alongside the
same `bool isOk_` flag. -/
structure UResult (ε : Type) where
  result_ : Sum UniquePtr ε
  isOk_ : Bool

/-- Embeds the constructor `Result(std::unique_ptr<OkType> &&value)`:
ownership of the pointer is transferred in and `isOk_` is set. -/
def UResult.mkOk {ε : Type} (p : UniquePtr) : UResult ε := ⟨Sum.inl p, true⟩

/-- Embeds the constructors `Result(const ErrType &)` / `Result(ErrType &&)`
of the specialization. -/
def UResult.mkErr {ε : Type} (error : ε) : UResult ε := ⟨Sum.inr error, false⟩

/-- Embeds the specialization's `isOk`. -/
def UResult.isOk {ε : Type} (r : UResult ε) : Bool := r.isOk_

/-- Embeds the specialization's `isErr`: `return !isOk_;`. -/
def UResult.isErr {ε : Type} (r : UResult ε) : Bool := !r.isOk_

/-- Embeds the specialization's `ok()`:
`return std::make_unique<OkType>(**value);` — in the Ok state a fresh cell
holding a copy of the pointee is allocated at the end of the heap and a
new owned pointer to it is returned; the container and the original
pointee are untouched (`ok` is `const`, so the result state is unchanged —
the heap is returned alongside to make allocation explicit).  Dereferencing
a dangling pointer would be undefined behaviour in the source; that branch
returns the heap unchanged with `none` as junk. -/
def UResult.ok {α ε : Type} (h : Heap α) (r : UResult ε) :
    Heap α × Option UniquePtr :=
  if r.isOk_ then
    match r.result_ with
    | Sum.inl p =>
      match Heap.read h p with
      | some value => (h ++ [value], some ⟨List.length h⟩)
      | none => (h, none)
    | Sum.inr _ => (h, none)
  else (h, none)

/-- Embeds the specialization's `err()`: the error is a plain value, not a
heap pointee, so no heap is involved. -/
def UResult.err {ε : Type} (r : UResult ε) : Option ε :=
  if !r.isOk_ then
    match r.result_ with
    | Sum.inr e => some e
    | Sum.inl _ => none
  else none

/-- The diagnostic string built by `Error(msg, SourceLocation &&)` starts
with the literal `"Error: "`, hence is never the empty string. -/
lemma diag_isEmpty_false (m fn f : String) (n : Nat) :
    ("Error: " ++ m ++ "\nFunction: " ++ fn ++ "\nFile: " ++ f ++ ":" ++
      toString n).isEmpty = false := by
  rw [Bool.eq_false_iff]
  intro h
  rw [String.isEmpty_iff] at h
  have hd := congrArg String.data h
  simp at hd

/-- The `info_` field of an `Error` built with a `SourceLocation` is
exactly the fixed-format diagnostic string. -/
lemma createLoc_info_field (m f fn : String) (n : Nat) :
    (Error.createLoc m ⟨f, n, fn⟩).info_ =
      "Error: " ++ m ++ "\nFunction: " ++ fn ++ "\nFile: " ++ f ++ ":" ++
        toString n := rfl

/-- C1: an Ok-constructed `Result` answers `isOk() = true`,
`isErr() = false`, `ok() = some v`, `err() = none`; an Err-constructed
`Result` answers symmetrically. -/
theorem result_constructors_classify {α ε : Type} (v : α) (e : ε) :
    (Result.mkOk v : Result α ε).isOk = true ∧
    (Result.mkOk v : Result α ε).isErr = false ∧
    (Result.mkOk v : Result α ε).ok = some v ∧
    (Result.mkOk v : Result α ε).err = none ∧
    (Result.mkErr e : Result α ε).isOk = false ∧
    (Result.mkErr e : Result α ε).isErr = true ∧
    (Result.mkErr e : Result α ε).ok = none ∧
    (Result.mkErr e : Result α ε).err = some e := by
  refine ⟨rfl, rfl, rfl, rfl, rfl, rfl, rfl, rfl⟩

/-- C2: `Error::create(m, SourceLocation(f, n, fn)).info()` is exactly
`"Error: " ++ m ++ "\nFunction: " ++ fn ++ "\nFile: " ++ f ++ ":" ++ n`,
and this diagnostic string is never empty. -/
theorem error_createLoc_info (m f fn : String) (n : Nat) :
    (Error.createLoc m ⟨f, n, fn⟩).info =
      "Error: " ++ m ++ "\nFunction: " ++ fn ++ "\nFile: " ++ f ++ ":" ++
        toString n ∧
    (Error.createLoc m ⟨f, n, fn⟩).info ≠ "" := by
  have hne := diag_isEmpty_false m fn f n
  have hinfo : (Error.createLoc m ⟨f, n, fn⟩).info =
      "Error: " ++ m ++ "\nFunction: " ++ fn ++ "\nFile: " ++ f ++ ":" ++
        toString n := by
    unfold Error.info
    rw [createLoc_info_field, hne]
    simp [createLoc_info_field]
  refine ⟨hinfo, ?_⟩
  rw [hinfo]
  intro h
  have h2 := congrArg String.isEmpty h
  rw [hne] at h2
  exact absurd h2 (by decide)

/-- C3: mapping a matching pure function over an Ok-state `Result`
produces an Ok-state `Result` holding the function's output. -/
theorem result_map_ok {α ε : Type} (v : α) (func : α → α) :
    ((Result.mkOk v : Result α ε).map func).ok = some (func v) ∧
    ((Result.mkOk v : Result α ε).map func).isOk = true := ⟨rfl, rfl⟩

/-- C4: `map` on an Err-state `Result` and `mapErr` on an Ok-state
`Result` are identity with respect to the stored value. -/
theorem result_map_opposite_identity {α ε : Type} (v : α) (e : ε)
    (func : α → α) (gunc : ε → ε) :
    ((Result.mkErr e : Result α ε).map func).err = some e ∧
    ((Result.mkErr e : Result α ε).map func).isErr = true ∧
    ((Result.mkOk v : Result α ε).mapErr gunc).ok = some v ∧
    ((Result.mkOk v : Result α ε).mapErr gunc).isOk = true :=
  ⟨rfl, rfl, rfl, rfl⟩

/-- C6: `set` overwrites only the message: afterwards `msg()` is the new
message; with a `SourceLocation` the diagnostic (and hence `info()`) still
embeds the old message; without one, `info()` is the new message. -/
theorem error_set_preserves_diagnostic (m m2 f fn : String) (n : Nat) :
    ((Error.createLoc m ⟨f, n, fn⟩).set m2).msg = m2 ∧
    ((Error.createLoc m ⟨f, n, fn⟩).set m2).info =
      "Error: " ++ m ++ "\nFunction: " ++ fn ++ "\nFile: " ++ f ++ ":" ++
        toString n ∧
    ((Error.create m).set m2).msg = m2 ∧
    ((Error.create m).set m2).info = m2 := by
  refine ⟨rfl, ?_, rfl, rfl⟩
  unfold Error.info
  have hne := diag_isEmpty_false m fn f n
  show (if !((Error.createLoc m ⟨f, n, fn⟩).set m2).info_.isEmpty then _ else _) = _
  have hfield : ((Error.createLoc m ⟨f, n, fn⟩).set m2).info_ =
      "Error: " ++ m ++ "\nFunction: " ++ fn ++ "\nFile: " ++ f ++ ":" ++
        toString n := rfl
  rw [hfield, hne]
  simp

/-- C7: `map` (resp. `mapErr`) with a callable not matching the expected
signature passes the matching-state `Result` through unchanged: same
state, same stored payload. -/
theorem result_map_mismatch_passthrough {α ε : Type} (v : α) (e : ε) :
    (Result.mkOk v : Result α ε).mapMismatch = Result.mkOk v ∧
    (Result.mkErr e : Result α ε).mapErrMismatch = Result.mkErr e :=
  ⟨rfl, rfl⟩

/-- C8: an `Error` created from a message alone has `msg() = m` and
`info() = m` (the empty diagnostic falls back to the message). -/
theorem error_create_msg_info (m : String) :
    (Error.create m).msg = m ∧ (Error.create m).info = m := ⟨rfl, rfl⟩

/-- C10: an `Error` created from the empty message and no source location
has `info() = ""`: the non-emptiness of `info()` does not extend to empty
messages. -/
theorem error_create_empty_info : (Error.create "").info = "" := rfl

/-- Every result reachable through the constructors and combinators is
literally a constructor application: either `mkOk v` or `mkErr e`. -/
lemma reachable_canonical {α ε : Type} {r : Result α ε} (h : Reachable r) :
    (∃ v, r = Result.mkOk v) ∨ (∃ e, r = Result.mkErr e) := by
  induction h with
  | mk_ok value => exact Or.inl ⟨value, rfl⟩
  | mk_err error => exact Or.inr ⟨error, rfl⟩
  | map_step func r hr ih =>
    rcases ih with ⟨v, rfl⟩ | ⟨e, rfl⟩
    · exact Or.inl ⟨func v, rfl⟩
    · exact Or.inr ⟨e, rfl⟩
  | mapMismatch_step r hr ih =>
    rcases ih with ⟨v, rfl⟩ | ⟨e, rfl⟩
    · exact Or.inl ⟨v, rfl⟩
    · exact Or.inr ⟨e, rfl⟩
  | mapErr_step func r hr ih =>
    rcases ih with ⟨v, rfl⟩ | ⟨e, rfl⟩
    · exact Or.inl ⟨v, rfl⟩
    · exact Or.inr ⟨func e, rfl⟩
  | mapErrMismatch_step r hr ih =>
    rcases ih with ⟨v, rfl⟩ | ⟨e, rfl⟩
    · exact Or.inl ⟨v, rfl⟩
    · exact Or.inr ⟨e, rfl⟩

/-- C9: every `Result` reachable through the constructors, `map` and
`mapErr` keeps the discriminant consistent with the live variant member:
`isOk` and `isErr` are exact complements, and exactly one of `ok()` and
`err()` is non-empty while the other is `none`. -/
theorem result_reachable_invariant {α ε : Type} (r : Result α ε)
    (h : Reachable r) :
    r.isErr = !r.isOk ∧
    ((r.ok.isSome = true ∧ r.err = none) ∨
      (r.ok = none ∧ r.err.isSome = true)) := by
  rcases reachable_canonical h with ⟨v, rfl⟩ | ⟨e, rfl⟩
  · exact ⟨rfl, Or.inl ⟨rfl, rfl⟩⟩
  · exact ⟨rfl, Or.inr ⟨rfl, rfl⟩⟩

/-- Witness for C9 at the concrete reachable result
`Result<Nat, String>(0).map(Nat.succ)`. -/
theorem result_reachable_invariant_witness :
    ((Result.mkOk 0 : Result Nat String).map Nat.succ).isErr =
      !((Result.mkOk 0 : Result Nat String).map Nat.succ).isOk ∧
    ((((Result.mkOk 0 : Result Nat String).map Nat.succ).ok.isSome = true ∧
        ((Result.mkOk 0 : Result Nat String).map Nat.succ).err = none) ∨
      (((Result.mkOk 0 : Result Nat String).map Nat.succ).ok = none ∧
        ((Result.mkOk 0 : Result Nat String).map Nat.succ).err.isSome = true)) :=
  result_reachable_invariant ((Result.mkOk 0 : Result Nat String).map Nat.succ)
    (Reachable.map_step Nat.succ (Result.mkOk 0) (Reachable.mk_ok 0))

/-- C5: on the owned-pointer specialization in the Ok state with a live
pointer `p`, `ok()` returns `some q` where `q` is a freshly allocated
pointer: `q` and `p` are distinct addresses, `q`'s pointee equals `p`'s
pointee by value, the original pointee is unchanged and still valid on the
new heap, and `ok()` can be called again on the result heap and still
succeeds (non-consuming). -/
theorem uresult_ok_deep_copy {α ε : Type} (h : Heap α) (p : UniquePtr)
    (hp : p.addr < h.length) :
    ∃ q : UniquePtr,
      (UResult.ok h (UResult.mkOk p : UResult ε)).2 = some q ∧
      q.addr ≠ p.addr ∧
      Heap.read (UResult.ok h (UResult.mkOk p : UResult ε)).1 q =
        Heap.read h p ∧
      Heap.read (UResult.ok h (UResult.mkOk p : UResult ε)).1 p =
        Heap.read h p ∧
      (Heap.read h p).isSome = true ∧
      (UResult.ok (UResult.ok h (UResult.mkOk p : UResult ε)).1
        (UResult.mkOk p : UResult ε)).2.isSome = true := by
  have hv : Heap.read h p = some h[p.addr] := by
    unfold Heap.read
    exact List.getElem?_eq_getElem hp
  have hok : UResult.ok h (UResult.mkOk p : UResult ε) =
      (h ++ [h[p.addr]], some ⟨List.length h⟩) := by
    unfold UResult.ok
    simp [UResult.mkOk, hv]
  refine ⟨⟨List.length h⟩, ?_, ?_, ?_, ?_, ?_, ?_⟩
  · rw [hok]
  · exact fun hq => absurd (hq ▸ hp) (lt_irrefl _)
  · rw [hok, hv]
    unfold Heap.read
    exact List.getElem?_concat_length h h[p.addr]
  · rw [hok]
    unfold Heap.read
    unfold Heap.read at hv
    rw [List.getElem?_append_left hp]
  · rw [hv]
    rfl
  · rw [hok]
    have hp2 : p.addr < (h ++ [h[p.addr]]).length := by
      rw [List.length_append]
      exact Nat.lt_of_lt_of_le hp (Nat.le_add_right _ _)
    have hv2 : Heap.read (h ++ [h[p.addr]]) p = some (h ++ [h[p.addr]])[p.addr] :=
      List.getElem?_eq_getElem hp2
    unfold UResult.ok
    simp [UResult.mkOk, hv2]

/-- Witness for C5 on the one-cell heap `[5]` with the pointer to cell 0
and `String` as the error type. -/
theorem uresult_ok_deep_copy_witness :
    ∃ q : UniquePtr,
      (UResult.ok [5] (UResult.mkOk ⟨0⟩ : UResult String)).2 = some q ∧
      q.addr ≠ (⟨0⟩ : UniquePtr).addr ∧
      Heap.read (UResult.ok [5] (UResult.mkOk ⟨0⟩ : UResult String)).1 q =
        Heap.read [5] ⟨0⟩ ∧
      Heap.read (UResult.ok [5] (UResult.mkOk ⟨0⟩ : UResult String)).1 ⟨0⟩ =
        Heap.read [5] ⟨0⟩ ∧
      (Heap.read ([5] : Heap Nat) ⟨0⟩).isSome = true ∧
      (UResult.ok (UResult.ok [5] (UResult.mkOk ⟨0⟩ : UResult String)).1
        (UResult.mkOk ⟨0⟩ : UResult String)).2.isSome = true :=
  uresult_ok_deep_copy [5] ⟨0⟩ (by decide)

end etl
